import Mathlib

/-!
Shallow embedding of the credential-issuance and request-authentication core
of `src/src/auth.py` (class `APIKeyManager`, the `require_api_key` middleware
and the HMAC request-signature pair).

Modelling conventions:
* The cryptographic primitives are abstracted as function parameters:
  `sha16` stands for `hashlib.sha256(x).hexdigest()[:16]` and
  `pbkdf2` for `hashlib.pbkdf2_hmac('sha256', key, salt, 100000).hex()`
  (keyed by the raw key and the salt's hex rendering); `hmacSha256` stands
  for `hmac.new(secret, msg, sha256).hexdigest()`.  They are ordinary
  functions, hence deterministic, exactly as the Python functions are.
* `datetime.now()` / `time.time()` are modelled as an explicit `now : Int`
  (seconds); `timedelta(days=d)` is `d * 86400` seconds.
* Nondeterministic draws (`secrets.token_urlsafe(32)`, `secrets.token_bytes(32)`)
  are explicit arguments `raw_key`, `salt` of `generate_api_key`.
* Python truthiness is modelled explicitly: a `None`-or-string value is
  `Option String`, and `if x:` on it is false for both `none` and `some ""`;
  `if expires_days:` is false for `none` and `some 0`;
  `permissions or [...]` takes the default for `none` and `some []`.
* The JSON file is modelled by the `persisted` snapshot in `ManagerState`;
  `save_api_keys` takes a `writeOk : Bool` telling whether the file write
  succeeds (the source catches `IOError`, logs it and continues).
-/

namespace ApiAuth

/-- A stored credential record: one value of the `self.api_keys[key_id]`
dict built in `generate_api_key` (src/src/auth.py lines 71-81). -/
structure KeyRecord where
  name : String
  key_hash : String
  salt : String
  permissions : List String
  created_at : Int
  expires_at : Option Int
  last_used : Option Int
  usage_count : Nat
  active : Bool
deriving Repr, DecidableEq

/-- The `self.api_keys` dict: an insertion-ordered association list from
`key_id` to record, mirroring a Python dict. -/
abbrev KeyStore := List (String × KeyRecord)

/-- Dict lookup `self.api_keys.get(key_id)` / `key_id in self.api_keys`. -/
def lookupKey : KeyStore → String → Option KeyRecord
  | [], _ => none
  | (k, v) :: rest, i => if k = i then some v else lookupKey rest i

/-- Dict assignment `self.api_keys[key_id] = record`: replaces in place when
the key exists (keeping its position, as Python dicts do), appends otherwise. -/
def insertKey : KeyStore → String → KeyRecord → KeyStore
  | [], i, r => [(i, r)]
  | (k, v) :: rest, i, r =>
      if k = i then (k, r) :: rest else (k, v) :: insertKey rest i r

/-- Manager state: the in-memory dict `self.api_keys` together with the
snapshot last successfully written to the storage file. -/
structure ManagerState where
  api_keys : KeyStore
  persisted : KeyStore
deriving Repr, DecidableEq

/-- `save_api_keys` (src/src/auth.py lines 35-41): one `json.dump` attempt
inside `try/except IOError`; on failure the error is logged and swallowed,
the in-memory dict is untouched either way.  `writeOk` says whether the
single write attempt succeeds. -/
def save_api_keys (st : ManagerState) (writeOk : Bool) : ManagerState :=
  if writeOk then { st with persisted := st.api_keys } else st

/-- The number of file-write attempts one `save_api_keys` call performs:
the source body is a single `with open(...): json.dump(...)` inside one
`try/except` — exactly one attempt, with no retry loop, whatever the
outcome of the attempt. -/
def save_write_attempts (writeOk : Bool) : Nat := 1

/-- `permissions or ['process', 'health']` (src/src/auth.py lines 75, 91):
Python `or` takes the default when `permissions` is `None` or the empty
(falsy) list. -/
def effectivePermissions (permissions : Option (List String)) : List String :=
  match permissions with
  | none => ["process", "health"]
  | some ps => if ps = [] then ["process", "health"] else ps

/-- Expiry computation (src/src/auth.py lines 66-68): `if expires_days:` is
skipped for `None` and for `0` (falsy), otherwise
`expires_at = datetime.now() + timedelta(days=expires_days)`. -/
def computeExpiresAt (now : Int) (expires_days : Option Int) : Option Int :=
  match expires_days with
  | none => none
  | some d => if d = 0 then none else some (now + d * 86400)

/-- The value returned by `generate_api_key` (src/src/auth.py lines 87-93). -/
structure GeneratedKey where
  api_key : String
  key_id : String
  name : String
  permissions : List String
  expires_at : Option Int
deriving Repr, DecidableEq

/-- The success value of `validate_api_key` (src/src/auth.py lines 150-154). -/
structure ValidationResult where
  key_id : String
  name : String
  permissions : List String
deriving Repr, DecidableEq

section Crypto

variable (sha16 : String → String) (pbkdf2 : String → String → String)

/-- The record stored by `generate_api_key` (src/src/auth.py lines 71-81). -/
def generatedRecord (name : String) (permissions : Option (List String))
    (expires_days : Option Int) (raw_key salt : String) (now : Int) : KeyRecord :=
  { name := name
    key_hash := pbkdf2 raw_key salt
    salt := salt
    permissions := effectivePermissions permissions
    created_at := now
    expires_at := computeExpiresAt now expires_days
    last_used := none
    usage_count := 0
    active := true }

/-- `generate_api_key` (src/src/auth.py lines 43-93).  The random draws
`raw_key` and `salt` and the current time `now` are explicit arguments;
`key_id = sha256(raw_key).hexdigest()[:16]` is `sha16 raw_key` and
`key_hash` is `pbkdf2 raw_key salt`. -/
def generate_api_key (st : ManagerState) (name : String)
    (permissions : Option (List String)) (expires_days : Option Int)
    (raw_key : String) (salt : String) (now : Int) (writeOk : Bool) :
    GeneratedKey × ManagerState :=
  let key_id := sha16 raw_key
  let record := generatedRecord pbkdf2 name permissions expires_days raw_key salt now
  let st1 : ManagerState := { st with api_keys := insertKey st.api_keys key_id record }
  ({ api_key := raw_key
     key_id := key_id
     name := name
     permissions := effectivePermissions permissions
     expires_at := computeExpiresAt now expires_days },
   save_api_keys st1 writeOk)

/-- The expiration check of `validate_api_key` (src/src/auth.py lines
123-128): expired when `expires_at` is set and `datetime.now() > expires_at`. -/
def expiredAt (expires_at : Option Int) (now : Int) : Bool :=
  match expires_at with
  | none => false
  | some e => decide (now > e)

/-- The permission check of `validate_api_key` (src/src/auth.py line 140):
`if required_permission and required_permission not in permissions` — the
check is skipped entirely when `required_permission` is `None` or the empty
(falsy) string. -/
def permissionDenied (required_permission : Option String)
    (perms : List String) : Bool :=
  match required_permission with
  | none => false
  | some p => if p = "" then false else decide (p ∉ perms)

/-- `validate_api_key` (src/src/auth.py lines 95-154).  Returns the success
value (or `none`) together with the state after the usage-statistics update
and its `save_api_keys` call. -/
def validate_api_key (st : ManagerState) (api_key : Option String)
    (required_permission : Option String) (now : Int) (writeOk : Bool) :
    Option ValidationResult × ManagerState :=
  match api_key with
  | none => (none, st)
  | some raw =>
    if raw = "" then (none, st)
    else
      let key_id := sha16 raw
      match lookupKey st.api_keys key_id with
      | none => (none, st)
      | some key_data =>
        if key_data.active = false then (none, st)
        else if expiredAt key_data.expires_at now then (none, st)
        else if pbkdf2 raw key_data.salt ≠ key_data.key_hash then (none, st)
        else if permissionDenied required_permission key_data.permissions then (none, st)
        else
          let updated : KeyRecord :=
            { key_data with
                last_used := some now
                usage_count := key_data.usage_count + 1 }
          let st1 : ManagerState := { st with api_keys := insertKey st.api_keys key_id updated }
          (some { key_id := key_id
                  name := key_data.name
                  permissions := key_data.permissions },
           save_api_keys st1 writeOk)

/-- `revoke_api_key` (src/src/auth.py lines 156-163): sets `active = False`
and saves when the id exists, returning whether it did. -/
def revoke_api_key (st : ManagerState) (key_id : String) (writeOk : Bool) :
    Bool × ManagerState :=
  match lookupKey st.api_keys key_id with
  | some key_data =>
    let st1 : ManagerState :=
      { st with api_keys := insertKey st.api_keys key_id { key_data with active := false } }
    (true, save_api_keys st1 writeOk)
  | none => (false, st)

end Crypto

/-- One element of the list returned by `list_api_keys`
(src/src/auth.py lines 169-178): every field the source copies, and only
those — `key_hash` and `salt` have no field here. -/
structure KeyMetadata where
  key_id : String
  name : String
  permissions : List String
  created_at : Int
  expires_at : Option Int
  last_used : Option Int
  usage_count : Nat
  active : Bool
deriving Repr, DecidableEq

/-- `list_api_keys` (src/src/auth.py lines 165-179). -/
def list_api_keys (st : ManagerState) : List KeyMetadata :=
  st.api_keys.map fun p =>
    { key_id := p.fst
      name := p.snd.name
      permissions := p.snd.permissions
      created_at := p.snd.created_at
      expires_at := p.snd.expires_at
      last_used := p.snd.last_used
      usage_count := p.snd.usage_count
      active := p.snd.active }

/-- The storage file as seen by `load_api_keys`: absent, or present with
some textual content. -/
inductive FileState where
  | absent
  | content (data : String)

/-- `load_api_keys` (src/src/auth.py lines 24-33): returns `{}` when the
file does not exist; otherwise parses it, and on `JSONDecodeError`/`IOError`
logs the error and returns `{}`.  `parse` stands for `json.load`, returning
`none` where the Python call raises. -/
def load_api_keys (parse : String → Option KeyStore) (fs : FileState) : KeyStore :=
  match fs with
  | .absent => []
  | .content data =>
    match parse data with
    | some keys => keys
    | none => []

/-- The spec's storage-failure taxonomy (§7). -/
inductive StorageError where
  | malformed
deriving Repr, DecidableEq

/-- Modelled from the spec: §4.1 "`load()` → mapping of id → record; returns
an empty mapping if no prior state exists; fails with `StorageError` on
malformed persisted data (fatal at startup)".  This definition follows the
spec's words and exists only to be compared with the source's
`load_api_keys`, which has no failing outcome. -/
def load_spec (parse : String → Option KeyStore) (fs : FileState) :
    Except StorageError KeyStore :=
  match fs with
  | .absent => .ok []
  | .content data =>
    match parse data with
    | some keys => .ok keys
    | none => .error .malformed

/-- Character-list prefix test, modelling `str.startswith`. -/
def isPrefixList : List Char → List Char → Bool
  | [], _ => true
  | _ :: _, [] => false
  | c :: cs, d :: ds => c = d && isPrefixList cs ds

/-- `'Bearer '` prefix handling in `require_api_key` (src/src/auth.py lines
198-200): `if api_key and api_key.startswith('Bearer '): api_key = api_key[7:]`
(`api_key[7:]` drops the first 7 characters). -/
def stripBearer (s : String) : String :=
  if s ≠ "" ∧ isPrefixList "Bearer ".data s.data then ⟨s.data.drop 7⟩ else s

/-- Credential extraction in `require_api_key` (src/src/auth.py line 196):
`request.headers.get('X-API-Key') or request.headers.get('Authorization')`
(Python `or`: an empty string in `X-API-Key` is falsy and falls through),
then the Bearer-prefix strip. -/
def extract_api_key (xApiKey authorization : Option String) : Option String :=
  let v : Option String :=
    match xApiKey with
    | some s => if s = "" then authorization else some s
    | none => authorization
  match v with
  | none => none
  | some s => some (stripBearer s)

/-- Outcome of the middleware: either the wrapped handler runs (with the
validated identity attached to the request context, or nothing when auth is
disabled), or a generic 401 response is returned. -/
inductive AuthOutcome where
  | handler (keyData : Option ValidationResult)
  | unauthorized
deriving Repr, DecidableEq

/-- `require_api_key` (src/src/auth.py lines 181-217): skips everything when
`DISABLE_API_AUTH` is set; otherwise extracts the credential from the
`X-API-Key` header or, failing that, the `Authorization` header, strips a
`Bearer ` prefix, and validates.  `queryApiKey` models an `api_key` query
parameter of the request: the source never reads query parameters, so it is
unused. -/
def require_api_key (sha16 : String → String) (pbkdf2 : String → String → String)
    (disableAuth : Bool) (st : ManagerState)
    (xApiKey authorization queryApiKey : Option String)
    (permission : Option String) (now : Int) (writeOk : Bool) :
    AuthOutcome × ManagerState :=
  if disableAuth then (.handler none, st)
  else
    let res := validate_api_key sha16 pbkdf2 st
      (extract_api_key xApiKey authorization) permission now writeOk
    match res.fst with
    | none => (.unauthorized, res.snd)
    | some kd => (.handler (some kd), res.snd)

/-- `generate_request_signature` (src/src/auth.py lines 219-237):
HMAC-SHA256 of `f"{timestamp}.{payload}"` keyed by the secret.  `hmacSha256`
takes the key then the message. -/
def generate_request_signature (hmacSha256 : String → String → String)
    (payload secret_key timestamp : String) : String :=
  hmacSha256 secret_key (timestamp ++ "." ++ payload)

/-- Digit accumulator for `parseDecInt`. -/
def parseDigitsAux : List Char → Nat → Option Nat
  | [], acc => some acc
  | c :: cs, acc =>
    if c.isDigit then parseDigitsAux cs (acc * 10 + (c.toNat - 48)) else none

/-- Python `int(s)` on a decimal string (an optional `-` sign followed by
digits), as `verify_request_signature` applies it to the timestamp; a
`ValueError` is `none`. -/
def parseDecInt (s : String) : Option Int :=
  match s.data with
  | [] => none
  | ['-'] => none
  | '-' :: cs => (parseDigitsAux cs 0).map fun n => -(n : Int)
  | cs => (parseDigitsAux cs 0).map fun n => (n : Int)

/-- `verify_request_signature` (src/src/auth.py lines 239-268): parses the
timestamp (`int(timestamp)`; a `ValueError` is caught and yields `False`),
rejects when `abs(now - timestamp) > tolerance` before any signature
computation, otherwise recomputes the expected signature and compares. -/
def verify_request_signature (hmacSha256 : String → String → String)
    (now : Int) (payload signature secret_key timestamp : String)
    (tolerance : Int) : Bool :=
  match parseDecInt timestamp with
  | none => false
  | some request_time =>
    if ((now - request_time).natAbs : Int) > tolerance then false
    else decide
      (signature = generate_request_signature hmacSha256 payload secret_key timestamp)

/-! ### Concrete interpretations of the abstract hash primitives

Used only to build closed instances (witnesses and counterexamples); the
universal theorems hold for every interpretation, in particular the real
SHA-256 / PBKDF2 / HMAC ones. -/

def sha16Test (s : String) : String := "id." ++ s

def pbkdf2Test (key saltHex : String) : String := "h." ++ key ++ "." ++ saltHex

def hmacTest (key msg : String) : String := "m." ++ key ++ "." ++ msg

/-- A manager state holding one freshly generated credential
(`name = "svc"`, permissions `["process"]`, raw secret `"RAWKEY"`). -/
def stTest : ManagerState :=
  (generate_api_key sha16Test pbkdf2Test ⟨[], []⟩ "svc" (some ["process"])
    none "RAWKEY" "SALTHEX" 0 true).snd

/-- An already-revoked credential record, for closed instances. -/
def rRevoked : KeyRecord :=
  { name := "old"
    key_hash := "h.OLD.S"
    salt := "S"
    permissions := ["process"]
    created_at := 0
    expires_at := none
    last_used := none
    usage_count := 3
    active := false }

/-- A manager state holding one already-revoked record under id `"id1"`. -/
def stRevoked : ManagerState := ⟨[("id1", rRevoked)], []⟩

/-! ### Store lemmas -/

theorem lookupKey_insertKey_self (s : KeyStore) (i : String) (r : KeyRecord) :
    lookupKey (insertKey s i r) i = some r := by
  induction s with
  | nil => simp [insertKey, lookupKey]
  | cons hd tl ih =>
    by_cases h : hd.fst = i
    · simp [insertKey, lookupKey, h]
    · simp [insertKey, lookupKey, h, ih]

theorem lookupKey_insertKey_ne (s : KeyStore) (i j : String) (r : KeyRecord)
    (h : i ≠ j) : lookupKey (insertKey s i r) j = lookupKey s j := by
  induction s with
  | nil => simp [insertKey, lookupKey, h]
  | cons hd tl ih =>
    by_cases hk : hd.fst = i
    · simp [insertKey, lookupKey, hk, h]
    · simp [insertKey, lookupKey, hk, ih]

theorem insertKey_of_lookupKey (s : KeyStore) (i : String) (r : KeyRecord)
    (h : lookupKey s i = some r) : insertKey s i r = s := by
  induction s with
  | nil => simp [lookupKey] at h
  | cons hd tl ih =>
    obtain ⟨k, v⟩ := hd
    by_cases hk : k = i
    · simp [lookupKey, hk] at h
      simp [insertKey, hk, h]
    · simp [lookupKey, hk] at h
      simp [insertKey, hk, ih h]

theorem save_api_keys_api_keys (st : ManagerState) (w : Bool) :
    (save_api_keys st w).api_keys = st.api_keys := by
  unfold save_api_keys; split <;> rfl

theorem save_api_keys_idem (st : ManagerState) (w : Bool) :
    save_api_keys (save_api_keys st w) w = save_api_keys st w := by
  cases w <;> rfl

theorem KeyRecord.set_active_false_of_inactive (r : KeyRecord)
    (h : r.active = false) : { r with active := false } = r := by
  cases r; simp_all

/-! ### Evaluation lemmas for the manager operations -/

section Eval

variable (sha16 : String → String) (pbkdf2 : String → String → String)

theorem generate_snd_api_keys (st : ManagerState) (name : String)
    (perms : Option (List String)) (ed : Option Int) (raw salt : String)
    (now : Int) (w : Bool) :
    (generate_api_key sha16 pbkdf2 st name perms ed raw salt now w).snd.api_keys
      = insertKey st.api_keys (sha16 raw)
          (generatedRecord pbkdf2 name perms ed raw salt now) := by
  simp [generate_api_key, save_api_keys_api_keys]

theorem validate_fst_eval (st : ManagerState) (raw : String)
    (rp : Option String) (now : Int) (w : Bool) (kd : KeyRecord)
    (hraw : raw ≠ "")
    (hl : lookupKey st.api_keys (sha16 raw) = some kd) :
    (validate_api_key sha16 pbkdf2 st (some raw) rp now w).fst
      = if kd.active = false then none
        else if expiredAt kd.expires_at now then none
        else if pbkdf2 raw kd.salt ≠ kd.key_hash then none
        else if permissionDenied rp kd.permissions then none
        else some ⟨sha16 raw, kd.name, kd.permissions⟩ := by
  simp only [validate_api_key, hl]
  rw [if_neg hraw]
  split
  · rfl
  · split
    · rfl
    · split
      · rfl
      · split
        · rfl
        · rfl

theorem validate_fst_writeOk (st : ManagerState) (ak rp : Option String)
    (now : Int) (w w' : Bool) :
    (validate_api_key sha16 pbkdf2 st ak rp now w).fst
      = (validate_api_key sha16 pbkdf2 st ak rp now w').fst := by
  cases ak with
  | none => rfl
  | some raw =>
    simp only [validate_api_key]
    split
    · rfl
    · cases hl : lookupKey st.api_keys (sha16 raw) with
      | none => rfl
      | some kd =>
        simp only []
        split <;> try rfl
        split <;> try rfl
        split <;> try rfl
        split <;> rfl

theorem validate_after_generate_fst (st : ManagerState) (name : String)
    (perms : Option (List String)) (ed : Option Int) (raw salt : String)
    (now now' : Int) (w w' : Bool) (rp : Option String)
    (hraw : raw ≠ "")
    (hexp : expiredAt (computeExpiresAt now ed) now' = false) :
    (validate_api_key sha16 pbkdf2
        (generate_api_key sha16 pbkdf2 st name perms ed raw salt now w).snd
        (some raw) rp now' w').fst
      = if permissionDenied rp (effectivePermissions perms) then none
        else some ⟨sha16 raw, name, effectivePermissions perms⟩ := by
  have hl : lookupKey
      (generate_api_key sha16 pbkdf2 st name perms ed raw salt now w).snd.api_keys
      (sha16 raw) = some (generatedRecord pbkdf2 name perms ed raw salt now) := by
    rw [generate_snd_api_keys, lookupKey_insertKey_self]
  rw [validate_fst_eval sha16 pbkdf2 _ raw rp now' w' _ hraw hl]
  simp [generatedRecord, hexp]

theorem validate_preserves_inactive (st : ManagerState) (ak rp : Option String)
    (now : Int) (w : Bool) (i : String) (r : KeyRecord)
    (hr : lookupKey st.api_keys i = some r) (hact : r.active = false) :
    lookupKey (validate_api_key sha16 pbkdf2 st ak rp now w).snd.api_keys i
      = some r := by
  cases ak with
  | none => exact hr
  | some raw =>
    simp only [validate_api_key]
    split
    · exact hr
    · cases hl : lookupKey st.api_keys (sha16 raw) with
      | none => exact hr
      | some kd =>
        simp only []
        split
        · exact hr
        · split
          · exact hr
          · split
            · exact hr
            · split
              · exact hr
              · rename_i hactive _ _ _
                have hne : sha16 raw ≠ i := by
                  intro he
                  rw [he, hr] at hl
                  cases hl
                  exact hactive hact
                simp only [save_api_keys_api_keys]
                rw [lookupKey_insertKey_ne _ _ _ _ hne]
                exact hr

theorem generate_fst (st : ManagerState) (name : String)
    (perms : Option (List String)) (ed : Option Int) (raw salt : String)
    (now : Int) (w : Bool) :
    (generate_api_key sha16 pbkdf2 st name perms ed raw salt now w).fst
      = ⟨raw, sha16 raw, name, effectivePermissions perms,
         computeExpiresAt now ed⟩ := rfl

end Eval

/-! ### Claim C1 -/

/-- C1 (counterexample): the claim "an immediate `validate(R, p)` fails for
every permission `p ∉ perms`" is false at `p = ""`: for a credential
generated with `perms = ["process"]`, the empty-string permission is not in
`perms`, yet `validate(R, "")` succeeds, because the Python check
`if required_permission and required_permission not in permissions` skips
the membership test for a falsy (empty) `required_permission`. -/
theorem C1_counterexample :
    ("" ∉ (["process"] : List String))
    ∧ (validate_api_key sha16Test pbkdf2Test
        (generate_api_key sha16Test pbkdf2Test ⟨[], []⟩ "ci-bot"
          (some ["process"]) none "RAWKEY" "S" 0 true).snd
        (some "RAWKEY") (some "") 5 true).fst
      = some ⟨"id.RAWKEY", "ci-bot", ["process"]⟩ := by
  constructor
  · decide
  · rfl

/-- C1 (amended): for every `generate(name, perms)` call with a nonempty
requested permission list (an empty one is replaced by the default set) that
returns raw secret `R`, an immediate `validate(R, p)` on the resulting store
with a nonempty permission string `p` succeeds and returns the identity
`(id, name, perms)` exactly when `p ∈ perms`, and fails when `p ∉ perms`
(assuming the credential has not expired at validation time); the
empty-string permission bypasses the membership check. -/
theorem C1_validate_after_generate
    (sha16 : String → String) (pbkdf2 : String → String → String)
    (st : ManagerState) (name : String) (ps : List String)
    (ed : Option Int) (raw salt : String) (now now' : Int) (w w' : Bool)
    (p : String)
    (hraw : raw ≠ "") (hps : ps ≠ []) (hp : p ≠ "")
    (hexp : expiredAt (computeExpiresAt now ed) now' = false) :
    (validate_api_key sha16 pbkdf2
        (generate_api_key sha16 pbkdf2 st name (some ps) ed raw salt now w).snd
        (some raw) (some p) now' w').fst
      = if p ∈ ps then
          some ⟨(generate_api_key sha16 pbkdf2 st name (some ps) ed raw salt
                  now w).fst.key_id, name, ps⟩
        else none := by
  rw [validate_after_generate_fst sha16 pbkdf2 st name (some ps) ed raw salt
    now now' w w' (some p) hraw hexp]
  have heff : effectivePermissions (some ps) = ps := by
    simp [effectivePermissions, hps]
  rw [heff, generate_fst]
  simp only [permissionDenied, if_neg hp]
  by_cases hmem : p ∈ ps
  · simp [hmem]
  · simp [hmem]

/-- Witness for C1: concrete instance with `perms = ["process"]` and the
out-of-set permission `p = "admin"`, which is rejected. -/
theorem C1_witness :
    (validate_api_key sha16Test pbkdf2Test
        (generate_api_key sha16Test pbkdf2Test ⟨[], []⟩ "ci-bot"
          (some ["process"]) none "RAWKEY" "S" 0 true).snd
        (some "RAWKEY") (some "admin") 5 true).fst
      = if "admin" ∈ (["process"] : List String) then
          some ⟨(generate_api_key sha16Test pbkdf2Test ⟨[], []⟩ "ci-bot"
                  (some ["process"]) none "RAWKEY" "S" 0 true).fst.key_id,
                "ci-bot", ["process"]⟩
        else none :=
  C1_validate_after_generate sha16Test pbkdf2Test ⟨[], []⟩ "ci-bot"
    ["process"] none "RAWKEY" "S" 0 5 true true "admin"
    (by decide) (by decide) (by decide) (by decide)

/-! ### Claim C9 -/

/-- C9: `generate` called with `permissions = None` or `= []` stores and
returns the default permission set `["process", "health"]` (the Python
`permissions or ['process', 'health']` treats both as falsy), and the
resulting credential validates successfully for both `"process"` and
`"health"` (assuming it has not expired at validation time). -/
theorem C9_default_permissions
    (sha16 : String → String) (pbkdf2 : String → String → String)
    (st : ManagerState) (name : String) (ed : Option Int)
    (raw salt : String) (now now' : Int) (w w' : Bool)
    (perms : Option (List String))
    (hperms : perms = none ∨ perms = some [])
    (hraw : raw ≠ "")
    (hexp : expiredAt (computeExpiresAt now ed) now' = false) :
    (generate_api_key sha16 pbkdf2 st name perms ed raw salt now w).fst.permissions
        = ["process", "health"]
    ∧ (lookupKey (generate_api_key sha16 pbkdf2 st name perms ed raw salt
          now w).snd.api_keys (sha16 raw)).map KeyRecord.permissions
        = some ["process", "health"]
    ∧ (validate_api_key sha16 pbkdf2
        (generate_api_key sha16 pbkdf2 st name perms ed raw salt now w).snd
        (some raw) (some "process") now' w').fst
        = some ⟨sha16 raw, name, ["process", "health"]⟩
    ∧ (validate_api_key sha16 pbkdf2
        (generate_api_key sha16 pbkdf2 st name perms ed raw salt now w).snd
        (some raw) (some "health") now' w').fst
        = some ⟨sha16 raw, name, ["process", "health"]⟩ := by
  have heff : effectivePermissions perms = ["process", "health"] := by
    rcases hperms with h | h <;> simp [effectivePermissions, h]
  refine ⟨?_, ?_, ?_, ?_⟩
  · rw [generate_fst, heff]
  · rw [generate_snd_api_keys, lookupKey_insertKey_self]
    simp [generatedRecord, heff]
  · rw [validate_after_generate_fst sha16 pbkdf2 st name perms ed raw salt
      now now' w w' (some "process") hraw hexp, heff]
    simp [permissionDenied]
  · rw [validate_after_generate_fst sha16 pbkdf2 st name perms ed raw salt
      now now' w w' (some "health") hraw hexp, heff]
    simp [permissionDenied]

/-- Witness for C9: a concrete `generate` with an explicitly empty
permission list. -/
theorem C9_witness :
    (generate_api_key sha16Test pbkdf2Test ⟨[], []⟩ "empty" (some [])
        none "RAWKEY" "S" 0 true).fst.permissions = ["process", "health"]
    ∧ (lookupKey (generate_api_key sha16Test pbkdf2Test ⟨[], []⟩ "empty"
          (some []) none "RAWKEY" "S" 0 true).snd.api_keys
          (sha16Test "RAWKEY")).map KeyRecord.permissions
        = some ["process", "health"]
    ∧ (validate_api_key sha16Test pbkdf2Test
        (generate_api_key sha16Test pbkdf2Test ⟨[], []⟩ "empty" (some [])
          none "RAWKEY" "S" 0 true).snd
        (some "RAWKEY") (some "process") 5 true).fst
        = some ⟨sha16Test "RAWKEY", "empty", ["process", "health"]⟩
    ∧ (validate_api_key sha16Test pbkdf2Test
        (generate_api_key sha16Test pbkdf2Test ⟨[], []⟩ "empty" (some [])
          none "RAWKEY" "S" 0 true).snd
        (some "RAWKEY") (some "health") 5 true).fst
        = some ⟨sha16Test "RAWKEY", "empty", ["process", "health"]⟩ :=
  C9_default_permissions sha16Test pbkdf2Test ⟨[], []⟩ "empty" none
    "RAWKEY" "S" 0 5 true true (some []) (Or.inr rfl) (by decide) (by decide)

/-! ### Claim C10 -/

/-- C10: `generate` with `expiresInDays = 0` produces a credential with no
expiry (`expires_at = none`, since Python `if expires_days:` treats `0` as
falsy), which validates successfully at every later time; any negative
`expiresInDays` produces an already-expired credential whose validation
always fails, at every time from creation on and for every required
permission. -/
theorem C10_expiry_semantics
    (sha16 : String → String) (pbkdf2 : String → String → String)
    (st : ManagerState) (name : String) (perms : Option (List String))
    (raw salt : String) (now t : Int) (w w' w2 w2' : Bool) (d : Int)
    (rp : Option String)
    (hraw : raw ≠ "") (hd : d < 0) (ht : now ≤ t) :
    (generate_api_key sha16 pbkdf2 st name perms (some 0) raw salt
        now w).fst.expires_at = none
    ∧ (validate_api_key sha16 pbkdf2
        (generate_api_key sha16 pbkdf2 st name perms (some 0) raw salt
          now w).snd (some raw) none t w').fst
        = some ⟨sha16 raw, name, effectivePermissions perms⟩
    ∧ (validate_api_key sha16 pbkdf2
        (generate_api_key sha16 pbkdf2 st name perms (some d) raw salt
          now w2).snd (some raw) rp t w2').fst = none := by
  refine ⟨?_, ?_, ?_⟩
  · rw [generate_fst]
    simp [computeExpiresAt]
  · rw [validate_after_generate_fst sha16 pbkdf2 st name perms (some 0)
      raw salt now t w w' none hraw (by simp [computeExpiresAt, expiredAt])]
    simp [permissionDenied]
  · have hl : lookupKey
        (generate_api_key sha16 pbkdf2 st name perms (some d) raw salt
          now w2).snd.api_keys (sha16 raw)
        = some (generatedRecord pbkdf2 name perms (some d) raw salt now) := by
      rw [generate_snd_api_keys, lookupKey_insertKey_self]
    rw [validate_fst_eval sha16 pbkdf2 _ raw rp t w2' _ hraw hl]
    have hd0 : d ≠ 0 := by omega
    have hexp : expiredAt (computeExpiresAt now (some d)) t = true := by
      simp only [computeExpiresAt, if_neg hd0, expiredAt,
        decide_eq_true_eq]
      have hmul : d * 86400 ≤ -1 * 86400 :=
        mul_le_mul_of_nonneg_right (by omega) (by norm_num)
      omega
    simp [generatedRecord, hexp]

/-- Witness for C10: concrete credentials with `expiresInDays = 0` and
`expiresInDays = -1`, validated at the creation instant. -/
theorem C10_witness :
    (generate_api_key sha16Test pbkdf2Test ⟨[], []⟩ "k" (some ["process"])
        (some 0) "RAWKEY" "S" 0 true).fst.expires_at = none
    ∧ (validate_api_key sha16Test pbkdf2Test
        (generate_api_key sha16Test pbkdf2Test ⟨[], []⟩ "k" (some ["process"])
          (some 0) "RAWKEY" "S" 0 true).snd (some "RAWKEY") none 0 true).fst
        = some ⟨sha16Test "RAWKEY", "k",
            effectivePermissions (some ["process"])⟩
    ∧ (validate_api_key sha16Test pbkdf2Test
        (generate_api_key sha16Test pbkdf2Test ⟨[], []⟩ "k" (some ["process"])
          (some (-1)) "RAWKEY" "S" 0 true).snd
        (some "RAWKEY") (some "process") 0 true).fst = none :=
  C10_expiry_semantics sha16Test pbkdf2Test ⟨[], []⟩ "k" (some ["process"])
    "RAWKEY" "S" 0 0 true true true true (-1) (some "process")
    (by decide) (by decide) (by decide)

/-! ### Claim C2 -/

/-- C2: after `revoke` of the id of a credential with raw secret `R`, a
subsequent `validate(R, p)` fails for every permission `p` even though `R`
is the exact correct secret; `revoke(I)` returns true exactly when a record
with id `I` exists, and is idempotent (a second `revoke` leaves the state
unchanged and again reports existence); and no operation sets a revoked
record's `active` back to true: `validate` (with any credential), `revoke`
(of any id) and `generate` (whose fresh id differs from the revoked one)
all leave an inactive record exactly as it is. -/
theorem C2_revoke_terminal
    (sha16 : String → String) (pbkdf2 : String → String → String)
    (st : ManagerState) (w w1 w2 w3 w4 : Bool) (now now2 : Int)
    (raw raw2 salt2 name2 : String) (rp rp2 : Option String)
    (ak : Option String) (j i : String) (r : KeyRecord)
    (perms2 : Option (List String)) (ed2 : Option Int)
    (hr : lookupKey st.api_keys i = some r) (hact : r.active = false)
    (hfresh : sha16 raw2 ≠ i) :
    ((revoke_api_key st j w).fst = (lookupKey st.api_keys j).isSome)
    ∧ ((validate_api_key sha16 pbkdf2
          (revoke_api_key st (sha16 raw) w).snd (some raw) rp now w1).fst
        = none)
    ∧ (revoke_api_key (revoke_api_key st j w).snd j w
        = ((lookupKey st.api_keys j).isSome, (revoke_api_key st j w).snd))
    ∧ (lookupKey (validate_api_key sha16 pbkdf2 st ak rp2 now2 w2).snd.api_keys i
        = some r)
    ∧ (lookupKey (revoke_api_key st j w3).snd.api_keys i = some r)
    ∧ (lookupKey (generate_api_key sha16 pbkdf2 st name2 perms2 ed2 raw2 salt2
          now2 w4).snd.api_keys i = some r) := by
  refine ⟨?_, ?_, ?_, ?_, ?_, ?_⟩
  · cases h : lookupKey st.api_keys j <;> simp [revoke_api_key, h]
  · cases h : lookupKey st.api_keys (sha16 raw) with
    | none =>
      have hrev : (revoke_api_key st (sha16 raw) w).snd = st := by
        simp [revoke_api_key, h]
      rw [hrev]
      by_cases hraw : raw = ""
      · simp [validate_api_key, hraw]
      · simp [validate_api_key, hraw, h]
    | some kd =>
      by_cases hraw : raw = ""
      · simp [validate_api_key, hraw]
      · have hl : lookupKey (revoke_api_key st (sha16 raw) w).snd.api_keys
            (sha16 raw) = some { kd with active := false } := by
          simp only [revoke_api_key, h, save_api_keys_api_keys]
          exact lookupKey_insertKey_self _ _ _
        rw [validate_fst_eval sha16 pbkdf2 _ raw rp now w1 _ hraw hl]
        simp
  · cases h : lookupKey st.api_keys j with
    | none => simp [revoke_api_key, h]
    | some kd =>
      have hrev : revoke_api_key st j w
          = (true, save_api_keys
              { st with api_keys := insertKey st.api_keys j { kd with active := false } } w) := by
        simp [revoke_api_key, h]
      rw [hrev]
      have h1 : lookupKey (save_api_keys
          { st with api_keys := insertKey st.api_keys j { kd with active := false } } w).api_keys j
          = some { kd with active := false } := by
        rw [save_api_keys_api_keys]
        exact lookupKey_insertKey_self _ _ _
      simp only [revoke_api_key, h1, Option.isSome_some]
      have h3 := insertKey_of_lookupKey _ _ _ h1
      rw [h3]
      exact congrArg (Prod.mk true) (save_api_keys_idem _ w)
  · exact validate_preserves_inactive sha16 pbkdf2 st ak rp2 now2 w2 i r hr hact
  · cases h : lookupKey st.api_keys j with
    | none => simp [revoke_api_key, h, hr]
    | some kd =>
      simp only [revoke_api_key, h, save_api_keys_api_keys]
      by_cases hji : j = i
      · subst hji
        rw [h] at hr
        injection hr with he
        subst he
        rw [lookupKey_insertKey_self,
          KeyRecord.set_active_false_of_inactive _ hact]
      · rw [lookupKey_insertKey_ne _ _ _ _ hji]
        exact hr
  · rw [generate_snd_api_keys, lookupKey_insertKey_ne _ _ _ _ hfresh]
    exact hr

/-- Witness for C2: the concrete one-record revoked store, revoking and
validating against it. -/
theorem C2_witness :
    ((revoke_api_key stRevoked "id1" true).fst
        = (lookupKey stRevoked.api_keys "id1").isSome)
    ∧ ((validate_api_key sha16Test pbkdf2Test
          (revoke_api_key stRevoked (sha16Test "RAWX") true).snd
          (some "RAWX") (some "process") 7 true).fst = none)
    ∧ (revoke_api_key (revoke_api_key stRevoked "id1" true).snd "id1" true
        = ((lookupKey stRevoked.api_keys "id1").isSome,
           (revoke_api_key stRevoked "id1" true).snd))
    ∧ (lookupKey (validate_api_key sha16Test pbkdf2Test stRevoked
          (some "RAWX") (some "process") 7 true).snd.api_keys "id1"
        = some rRevoked)
    ∧ (lookupKey (revoke_api_key stRevoked "id1" false).snd.api_keys "id1"
        = some rRevoked)
    ∧ (lookupKey (generate_api_key sha16Test pbkdf2Test stRevoked "new"
          (some ["admin"]) none "FRESH" "S2" 7 true).snd.api_keys "id1"
        = some rRevoked) :=
  C2_revoke_terminal sha16Test pbkdf2Test stRevoked true true true false true
    7 7 "RAWX" "FRESH" "S2" "new" (some "process") (some "process")
    (some "RAWX") "id1" "id1" rRevoked (some ["admin"]) none
    (by decide) (by decide) (by decide)

/-! ### Claim C3 -/

/-- C3 (counterexample): when the persisted store exists but holds malformed
data (the JSON parse fails), the source's `load_api_keys` does not fail —
it returns the empty mapping, exactly what the spec-modelled `load_spec`
refuses to do (it returns `StorageError`).  The claimed fatal failure does
not happen. -/
theorem C3_counterexample :
    load_api_keys (fun _ => none) (.content "not json at all") = []
    ∧ load_spec (fun _ => none) (.content "not json at all") = .error .malformed :=
  ⟨rfl, rfl⟩

/-- C3 (amended): when the persisted key store exists but holds malformed
data, `load` catches the parse error, logs it, and returns the empty
mapping — startup proceeds with an empty key set; no `StorageError` (as the
spec-modelled `load_spec` would demand) is ever produced. -/
theorem C3_load_malformed
    (parse : String → Option KeyStore) (data : String)
    (hp : parse data = none) :
    load_api_keys parse (.content data) = []
    ∧ load_spec parse (.content data) = .error .malformed := by
  constructor <;> simp [load_api_keys, load_spec, hp]

/-- Witness for C3: a concrete malformed content string. -/
theorem C3_witness :
    load_api_keys (fun _ => none) (.content "garbage") = []
    ∧ load_spec (fun _ => none) (.content "garbage") = .error .malformed :=
  C3_load_malformed (fun _ => none) "garbage" rfl

/-! ### Claim C4 -/

/-- C4 (counterexample): two `generate` runs drawing the same raw secret
but differing in store, name, permissions, expiry, salt, time and write
outcome produce the same administrative id — so the id is determined by a
function of the raw secret alone, contradicting the claim. -/
theorem C4_counterexample :
    (generate_api_key sha16Test pbkdf2Test ⟨[], []⟩ "a" (some ["process"])
        none "RAW" "salt1" 0 true).fst.key_id
      = (generate_api_key sha16Test pbkdf2Test stRevoked "b" none (some 5)
          "RAW" "salt2" 99 false).fst.key_id := rfl

/-- C4 (amended): the administrative id returned by `generate` is a
function of the raw secret alone, namely the truncated hash
`sha256(raw)[:16]`: any two `generate` calls with the same raw secret
return the same id, whatever the store, name, permissions, expiry, salt,
time, write outcome — and even the key-derivation function — of the two
runs. -/
theorem C4_key_id_determined_by_raw
    (sha16 : String → String) (pbkdf2 pbkdf2' : String → String → String)
    (st st' : ManagerState) (name name' : String)
    (perms perms' : Option (List String)) (ed ed' : Option Int)
    (raw salt salt' : String) (now now' : Int) (w w' : Bool) :
    (generate_api_key sha16 pbkdf2 st name perms ed raw salt now w).fst.key_id
        = sha16 raw
    ∧ (generate_api_key sha16 pbkdf2 st name perms ed raw salt now w).fst.key_id
        = (generate_api_key sha16 pbkdf2' st' name' perms' ed' raw salt'
            now' w').fst.key_id :=
  ⟨rfl, rfl⟩

/-! ### Claim C5 -/

/-- Replaces every record's `key_hash` and `salt` fields by arbitrary other
values, leaving every other field untouched.  Used to state that an output
contains neither field: the output is invariant under scrubbing. -/
def scrubSecrets (f g : KeyRecord → String) (s : KeyStore) : KeyStore :=
  s.map fun p => (p.fst, { p.snd with key_hash := f p.snd, salt := g p.snd })

/-- C5: no output of `list` or of a successful `validate` contains `keyHash`
or `salt`: the result of `list` is unchanged when every record's `key_hash`
and `salt` are replaced by arbitrary values (it reads neither), and the
success value of `validate` is exactly the triple
`(id, name, permissions)` of the matched record — fields disjoint from
`key_hash` and `salt`.  (On failure the result is the bare failure value
`none`, which carries no fields at all.) -/
theorem C5_no_secret_exposure
    (sha16 : String → String) (pbkdf2 : String → String → String)
    (st : ManagerState) (pers : KeyStore) (f g : KeyRecord → String)
    (rp : Option String) (now : Int) (w : Bool)
    (raw : String) (kd : KeyRecord) (v : ValidationResult)
    (hl : lookupKey st.api_keys (sha16 raw) = some kd)
    (hv : (validate_api_key sha16 pbkdf2 st (some raw) rp now w).fst = some v) :
    list_api_keys ⟨scrubSecrets f g st.api_keys, pers⟩ = list_api_keys st
    ∧ v = ⟨sha16 raw, kd.name, kd.permissions⟩ := by
  constructor
  · simp only [list_api_keys, scrubSecrets, List.map_map]
    rfl
  · by_cases hraw : raw = ""
    · rw [hraw] at hv
      simp [validate_api_key] at hv
    · rw [validate_fst_eval sha16 pbkdf2 st raw rp now w kd hraw hl] at hv
      split at hv
      · cases hv
      · split at hv
        · cases hv
        · split at hv
          · cases hv
          · split at hv
            · cases hv
            · injection hv with he
              exact he.symm

/-- Witness for C5: the concrete one-credential store, with both hash and
salt scrubbed to constants. -/
theorem C5_witness :
    list_api_keys ⟨scrubSecrets (fun _ => "X") (fun _ => "Y")
        stTest.api_keys, []⟩ = list_api_keys stTest
    ∧ (⟨"id.RAWKEY", "svc", ["process"]⟩ : ValidationResult)
        = ⟨sha16Test "RAWKEY",
           (generatedRecord pbkdf2Test "svc" (some ["process"]) none
             "RAWKEY" "SALTHEX" 0).name,
           (generatedRecord pbkdf2Test "svc" (some ["process"]) none
             "RAWKEY" "SALTHEX" 0).permissions⟩ :=
  C5_no_secret_exposure sha16Test pbkdf2Test stTest [] (fun _ => "X")
    (fun _ => "Y") (some "process") 5 true "RAWKEY"
    (generatedRecord pbkdf2Test "svc" (some ["process"]) none "RAWKEY"
      "SALTHEX" 0)
    ⟨"id.RAWKEY", "svc", ["process"]⟩ (by decide) (by decide)

/-! ### Claim C6 -/

/-- C6: for every payload, secret, integer-valued timestamp string and
nonnegative tolerance, verifying the signature produced by `sign` at
current time `now` succeeds exactly when `|now − ts| ≤ tol`; in particular
it succeeds at `now = ts + tol` and fails at `now = ts + tol + 1`; and a
timestamp outside tolerance is rejected before the signature is computed:
the result is `false` for every provided signature and every HMAC
function. -/
theorem C6_signature_roundtrip
    (h h2 : String → String → String)
    (payload secret timestamp sig2 : String) (ts tol now now2 : Int)
    (hts : parseDecInt timestamp = some ts)
    (htol : 0 ≤ tol)
    (hfar : ((now2 - ts).natAbs : Int) > tol) :
    (verify_request_signature h now payload
        (generate_request_signature h payload secret timestamp)
        secret timestamp tol = true
      ↔ ((now - ts).natAbs : Int) ≤ tol)
    ∧ verify_request_signature h (ts + tol) payload
        (generate_request_signature h payload secret timestamp)
        secret timestamp tol = true
    ∧ verify_request_signature h (ts + tol + 1) payload
        (generate_request_signature h payload secret timestamp)
        secret timestamp tol = false
    ∧ verify_request_signature h2 now2 payload sig2 secret timestamp tol
        = false := by
  refine ⟨?_, ?_, ?_, ?_⟩
  · simp only [verify_request_signature, hts]
    by_cases hc : ((now - ts).natAbs : Int) > tol
    · rw [if_pos hc]
      constructor
      · intro hfalse
        cases hfalse
      · intro hle
        omega
    · rw [if_neg hc]
      simp only [decide_eq_true_eq]
      constructor
      · intro _
        omega
      · intro _
        trivial
  · simp only [verify_request_signature, hts]
    have hc : ¬ (((ts + tol - ts).natAbs : Int) > tol) := by omega
    rw [if_neg hc]
    simp
  · simp only [verify_request_signature, hts]
    have hc : ((ts + tol + 1 - ts).natAbs : Int) > tol := by omega
    rw [if_pos hc]
  · simp only [verify_request_signature, hts]
    rw [if_pos hfar]

/-- Witness for C6: payload `"abc"`, secret `"S"`, timestamp `"100"`,
tolerance `300`, verified at times 250 (inside), 400 (= ts + tol),
401 (just outside), and 500 with a bogus signature. -/
theorem C6_witness :
    (verify_request_signature hmacTest 250 "abc"
        (generate_request_signature hmacTest "abc" "S" "100")
        "S" "100" 300 = true
      ↔ (((250 : Int) - 100).natAbs : Int) ≤ 300)
    ∧ verify_request_signature hmacTest (100 + 300) "abc"
        (generate_request_signature hmacTest "abc" "S" "100")
        "S" "100" 300 = true
    ∧ verify_request_signature hmacTest (100 + 300 + 1) "abc"
        (generate_request_signature hmacTest "abc" "S" "100")
        "S" "100" 300 = false
    ∧ verify_request_signature (fun _ _ => "other") 500 "abc" "bogus"
        "S" "100" 300 = false :=
  C6_signature_roundtrip hmacTest (fun _ _ => "other") "abc" "S" "100"
    "bogus" 100 300 250 500 (by decide) (by decide) (by decide)

/-! ### Claim C7 -/

/-- C7 (counterexample): with both headers absent, a valid raw secret
placed in an `api_key` query parameter is NOT consulted — the request is
rejected — while the same secret in the `X-API-Key` header is accepted:
the source has no query-parameter fallback (its fallback is the
`Authorization` header). -/
theorem C7_counterexample :
    ((require_api_key sha16Test pbkdf2Test false stTest none none
        (some "RAWKEY") (some "process") 5 true).fst = .unauthorized)
    ∧ ((require_api_key sha16Test pbkdf2Test false stTest (some "RAWKEY")
        none none (some "process") 5 true).fst
      = .handler (some ⟨"id.RAWKEY", "svc", ["process"]⟩)) :=
  ⟨rfl, rfl⟩

/-- C7 (amended): the middleware extracts the credential from the
`X-API-Key` header; when that header is absent (or empty, hence falsy) it
falls back to the `Authorization` header — never to a query parameter (the
outcome is independent of any query parameter); a `Bearer ` prefix is
stripped from the extracted value; and when the disable-auth flag is set
the wrapped handler is invoked with no credential check at all. -/
theorem C7_middleware
    (sha16 : String → String) (pbkdf2 : String → String → String)
    (st : ManagerState) (x a q q' : Option String) (perm : Option String)
    (now : Int) (w : Bool) (s s2 : String)
    (hs : s ≠ "") (hb : isPrefixList "Bearer ".data s2.data = true)
    (hs2 : s2 ≠ "") :
    (require_api_key sha16 pbkdf2 true st x a q perm now w
        = (.handler none, st))
    ∧ (require_api_key sha16 pbkdf2 false st x a q perm now w
        = require_api_key sha16 pbkdf2 false st x a q' perm now w)
    ∧ (extract_api_key (some s) a = some (stripBearer s))
    ∧ (extract_api_key none a = a.map stripBearer)
    ∧ (extract_api_key (some "") a = a.map stripBearer)
    ∧ (stripBearer s2 = ⟨s2.data.drop 7⟩) := by
  refine ⟨rfl, rfl, ?_, ?_, ?_, ?_⟩
  · simp [extract_api_key, hs]
  · cases a <;> simp [extract_api_key]
  · cases a <;> simp [extract_api_key]
  · simp [stripBearer, hb, hs2]

/-- Witness for C7: a plain credential string and a Bearer-prefixed one. -/
theorem C7_witness :
    (require_api_key sha16Test pbkdf2Test true stTest none (some "authval")
        (some "q") (some "process") 5 true = (.handler none, stTest))
    ∧ (require_api_key sha16Test pbkdf2Test false stTest none
        (some "authval") (some "q") (some "process") 5 true
        = require_api_key sha16Test pbkdf2Test false stTest none
            (some "authval") none (some "process") 5 true)
    ∧ (extract_api_key (some "plainkey") (some "authval")
        = some (stripBearer "plainkey"))
    ∧ (extract_api_key none (some "authval")
        = (some "authval").map stripBearer)
    ∧ (extract_api_key (some "") (some "authval")
        = (some "authval").map stripBearer)
    ∧ (stripBearer "Bearer xyz" = ⟨"Bearer xyz".data.drop 7⟩) :=
  C7_middleware sha16Test pbkdf2Test stTest none (some "authval")
    (some "q") none (some "process") 5 true "plainkey" "Bearer xyz"
    (by decide) (by decide) (by decide)

/-! ### Claim C8 -/

/-- C8 (counterexample): the claim says a failed statistics write is
retried exactly once (so a call whose first attempt fails would perform two
attempts); the source performs exactly one attempt — there is no retry —
although `validate` does still return the success identity when the write
fails. -/
theorem C8_counterexample :
    save_write_attempts false = 1
    ∧ save_write_attempts false ≠ 2
    ∧ (validate_api_key sha16Test pbkdf2Test stTest (some "RAWKEY")
        (some "process") 5 false).fst
      = some ⟨"id.RAWKEY", "svc", ["process"]⟩ :=
  ⟨rfl, by decide, rfl⟩

/-- C8 (amended): a storage write failure during the post-success
usage-statistics update is never retried — `save_api_keys` performs exactly
one write attempt whatever its outcome — and `validate` still returns the
same success identity to the caller: its returned value is independent of
whether the write succeeds. -/
theorem C8_no_retry_preserves_success
    (sha16 : String → String) (pbkdf2 : String → String → String)
    (st : ManagerState) (ak rp : Option String) (now : Int)
    (v : ValidationResult)
    (hv : (validate_api_key sha16 pbkdf2 st ak rp now true).fst = some v) :
    save_write_attempts false = 1
    ∧ (validate_api_key sha16 pbkdf2 st ak rp now false).fst = some v := by
  refine ⟨rfl, ?_⟩
  rw [validate_fst_writeOk sha16 pbkdf2 st ak rp now false true]
  exact hv

/-- Witness for C8: the concrete credential of `stTest`, validated with the
statistics write failing. -/
theorem C8_witness :
    save_write_attempts false = 1
    ∧ (validate_api_key sha16Test pbkdf2Test stTest (some "RAWKEY")
        (some "process") 5 false).fst
      = some ⟨"id.RAWKEY", "svc", ["process"]⟩ :=
  C8_no_retry_preserves_success sha16Test pbkdf2Test stTest (some "RAWKEY")
    (some "process") 5 ⟨"id.RAWKEY", "svc", ["process"]⟩ (by decide)

end ApiAuth
